import Mathlib

/-!
Shallow embedding of the `BfsHeuristic` component of the smpl repository
(`bfs_heuristic.cpp`). The heuristic adapter functions (`setGoal`,
`getMetricGoalDistance`, `GetGoalHeuristic`, `GetStartHeuristic`,
`GetFromToHeuristic`, `syncGridAndBfs`, `getBfsCostToGoal`) are translated
directly from the source. The `BFS_3D` wavefront engine lives elsewhere in
the repository, so its state and operations are modelled from the
specification's description of the Wavefront Engine. C++ `double` values
are embedded as rationals, C++ `int` as `Int`.
-/

namespace Smpl

/-- C++ `INT_MAX` from `<climits>`, the "infinite" cost sentinel. -/
def INT_MAX : Int := 2147483647

/-- Modelled from the spec: the Wavefront Engine state (`BFS_3D`), a dense
3D field of per-cell wall flags and per-cell integer distances with fixed
dimensions. -/
structure BFS_3D where
  dimX : Int
  dimY : Int
  dimZ : Int
  wall : Int → Int → Int → Bool
  dist : Int → Int → Int → Int

/-- Modelled from the spec: the `WALL` sentinel distance value of `BFS_3D`
("cell is an obstacle, distance undefined/infinite"), a designated large
constant. -/
def BFS_3D.WALL : Int := 1073741824

/-- Modelled from the spec: the `UNDISCOVERED` sentinel distance value of
`BFS_3D` ("free cell not yet reached from the current source set"), a
designated value distinct from `WALL` and from every legitimate
(non-negative) BFS distance. -/
def BFS_3D.UNDISCOVERED : Int := -1

/-- Modelled from the spec: `inBounds(x, y, z)`, a pure predicate checking
that the cell lies within grid bounds. -/
def BFS_3D.inBounds (b : BFS_3D) (x y z : Int) : Bool :=
  decide (0 ≤ x ∧ x < b.dimX ∧ 0 ≤ y ∧ y < b.dimY ∧ 0 ≤ z ∧ z < b.dimZ)

/-- Modelled from the spec: `getDistance(x, y, z)`, an O(1) lookup into the
distance field. -/
def BFS_3D.getDistance (b : BFS_3D) (x y z : Int) : Int :=
  b.dist x y z

/-- Modelled from the spec: `isWall(x, y, z)`, a pure predicate. -/
def BFS_3D.isWall (b : BFS_3D) (x y z : Int) : Bool :=
  b.wall x y z

/-- Modelled from the spec: `setWall(x, y, z)` marks one cell of the wall
mask. -/
def BFS_3D.setWall (b : BFS_3D) (x y z : Int) : BFS_3D :=
  { b with wall := fun a e f => if a = x ∧ e = y ∧ f = z then true else b.wall a e f }

/-- Modelled from the spec: the six-neighbor connectivity of the wavefront
expansion (the spec leaves the connectivity model open; 6-connectivity is
the minimal faithful contract and no verified property depends on the
choice). -/
def neighbors (x y z : Int) : List (Int × Int × Int) :=
  [(x + 1, y, z), (x - 1, y, z), (x, y + 1, z), (x, y - 1, z),
   (x, y, z + 1), (x, y, z - 1)]

/-- Modelled from the spec: one wavefront layer of the breadth-first
expansion — every in-bounds, non-wall, still-`UNDISCOVERED` cell adjacent
to a cell at distance `k` is assigned distance `k + 1`. -/
def BFS_3D.step (b : BFS_3D) (k : Int) : BFS_3D :=
  { b with dist := fun x y z =>
      if b.inBounds x y z = true ∧ b.wall x y z = false ∧
          b.dist x y z = BFS_3D.UNDISCOVERED ∧
          (neighbors x y z).any
            (fun c => b.inBounds c.1 c.2.1 c.2.2 &&
              decide (b.dist c.1 c.2.1 c.2.2 = k)) = true
      then k + 1 else b.dist x y z }

/-- Modelled from the spec: iterated wavefront layers; `steps b n` has
performed the layers `0, 1, …, n - 1`. -/
def BFS_3D.steps (b : BFS_3D) : Nat → BFS_3D
  | 0 => b
  | n + 1 => BFS_3D.step (BFS_3D.steps b n) (Int.ofNat n)

/-- Modelled from the spec: `run(x, y, z)` — the distance field is reset to
all-`UNDISCOVERED` except walls (which get `WALL`), the frontier is seeded
with the source cell at distance 0, and layered breadth-first expansion
proceeds until no frontier remains (the cell count bounds the number of
layers). -/
def BFS_3D.run (b : BFS_3D) (x y z : Int) : BFS_3D :=
  BFS_3D.steps
    { b with dist := fun a e f =>
        if a = x ∧ e = y ∧ f = z then 0
        else if b.wall a e f = true then BFS_3D.WALL
        else BFS_3D.UNDISCOVERED }
    (b.dimX * b.dimY * b.dimZ).toNat

/-- The borrowed occupancy/clearance grid collaborator (`m_grid`):
dimensions, per-cell clearance distances, world-to-grid transform and
resolution, as consumed by `bfs_heuristic.cpp`. -/
structure OccupancyGrid where
  sizeX : Int
  sizeY : Int
  sizeZ : Int
  getDistance : Int → Int → Int → ℚ
  worldToGrid : ℚ → ℚ → ℚ → Int × Int × Int
  getResolution : ℚ

/-- The planning parameters consumed by `bfs_heuristic.cpp` (`m_params`):
`planning_link_sphere_radius_` and `cost_per_cell_`. -/
structure PlanningParams where
  planning_link_sphere_radius : ℚ
  cost_per_cell : Int

/-- The `BfsHeuristic` object state: the borrowed grid and parameters, the
owned `BFS_3D`, and the borrowed environment collaborator (`m_manip_env`)
abstracted to its two consumed operations, `getHashEntry` (state id to grid
cell, or not found) and `isGoal`. -/
structure BfsHeuristic where
  grid : OccupancyGrid
  params : PlanningParams
  bfs : BFS_3D
  getHashEntry : Int → Option (Int × Int × Int)
  isGoal : Int → Bool

/-- `BfsHeuristic::setGoal(int x, int y, int z)`: if the cell is not in BFS
bounds, report failure; otherwise run the wavefront from it and report
success. Returns the result together with the updated object state. -/
def BfsHeuristic.setGoal (h : BfsHeuristic) (x y z : Int) : Bool × BfsHeuristic :=
  if !(h.bfs.inBounds x y z) then
    (false, h)
  else
    (true, { h with bfs := h.bfs.run x y z })

/-- `BfsHeuristic::getMetricGoalDistance(double x, double y, double z)`:
convert the world point to grid coordinates; out of bounds yields
`(double)BFS_3D::WALL * resolution`, otherwise `getDistance * resolution`. -/
def BfsHeuristic.getMetricGoalDistance (h : BfsHeuristic) (x y z : ℚ) : ℚ :=
  let g := h.grid.worldToGrid x y z
  if !(h.bfs.inBounds g.1 g.2.1 g.2.2) then
    (BFS_3D.WALL : ℚ) * h.grid.getResolution
  else
    (h.bfs.getDistance g.1 g.2.1 g.2.2 : ℚ) * h.grid.getResolution

/-- `BfsHeuristic::getBfsCostToGoal(const BFS_3D&, int x, int y, int z)`:
`INT_MAX` when out of bounds, `INT_MAX` when the stored distance is the
`WALL` sentinel, otherwise `cost_per_cell_ * getDistance`. -/
def BfsHeuristic.getBfsCostToGoal (h : BfsHeuristic) (bfs : BFS_3D)
    (x y z : Int) : Int :=
  if !(bfs.inBounds x y z) then
    INT_MAX
  else if bfs.getDistance x y z = BFS_3D.WALL then
    INT_MAX
  else
    h.params.cost_per_cell * bfs.getDistance x y z

/-- `BfsHeuristic::GetGoalHeuristic(int state_id)`: resolve the state id
through the environment's hash table; on success delegate to
`getBfsCostToGoal` at the state's cell, otherwise return 0. -/
def BfsHeuristic.GetGoalHeuristic (h : BfsHeuristic) (state_id : Int) : Int :=
  match h.getHashEntry state_id with
  | some s => h.getBfsCostToGoal h.bfs s.1 s.2.1 s.2.2
  | none => 0

/-- `BfsHeuristic::GetStartHeuristic(int state_id)`: unimplemented, returns
0 (the body only emits a warning log). Returned together with the
(unchanged) object state. -/
def BfsHeuristic.GetStartHeuristic (h : BfsHeuristic) (_state_id : Int) :
    Int × BfsHeuristic :=
  (0, h)

/-- `BfsHeuristic::GetFromToHeuristic(int from_id, int to_id)`: when the
environment recognizes `to_id` as the goal, defer to
`GetGoalHeuristic(from_id)`; otherwise return 0. -/
def BfsHeuristic.GetFromToHeuristic (h : BfsHeuristic) (from_id to_id : Int) : Int :=
  if h.isGoal to_id then
    h.GetGoalHeuristic from_id
  else
    0

/-- The cells visited by the triple loop of `syncGridAndBfs`, in loop order
(`z` outermost, `x` innermost). -/
def allCells (xc yc zc : Nat) : List (Int × Int × Int) :=
  (List.range zc).flatMap fun (z : Nat) =>
    (List.range yc).flatMap fun (y : Nat) =>
      (List.range xc).map fun (x : Nat) => ((x : Int), (y : Int), (z : Int))

/-- The loop body of `syncGridAndBfs` folded over the visited cells: mark a
wall at every visited cell whose clearance distance is
`<= planning_link_sphere_radius_`. -/
def markWalls (g : OccupancyGrid) (r : ℚ) (L : List (Int × Int × Int))
    (b : BFS_3D) : BFS_3D :=
  L.foldl
    (fun acc c =>
      if g.getDistance c.1 c.2.1 c.2.2 ≤ r then acc.setWall c.1 c.2.1 c.2.2
      else acc)
    b

/-- `BfsHeuristic::syncGridAndBfs()`: allocate a fresh `BFS_3D` sized to the
grid, then walk every cell and `setWall` exactly those whose clearance
distance is `<= planning_link_sphere_radius_`. -/
def BfsHeuristic.syncGridAndBfs (h : BfsHeuristic) : BfsHeuristic :=
  { h with bfs :=
      (markWalls h.grid h.params.planning_link_sphere_radius
        (allCells h.grid.sizeX.toNat h.grid.sizeY.toNat h.grid.sizeZ.toNat)
        { dimX := h.grid.sizeX, dimY := h.grid.sizeY, dimZ := h.grid.sizeZ,
          wall := fun _ _ _ => false,
          dist := fun _ _ _ => BFS_3D.UNDISCOVERED }) }

/-! Concrete states used to instantiate the verified properties. -/

/-- A 2×1×1 occupancy grid: clearance 0 at `x = 0`, clearance 10 at the
other cell; a simple world-to-grid transform; resolution 1/2. -/
def exGrid : OccupancyGrid where
  sizeX := 2
  sizeY := 1
  sizeZ := 1
  getDistance := fun x _ _ => if x = 0 then 0 else 10
  worldToGrid := fun x _ _ =>
    (if x < 0 then -1 else if x < 1 then 0 else if x < 2 then 1 else 5, 0, 0)
  getResolution := 1 / 2

/-- Example planning parameters: clearance radius 1, cost 100 per cell. -/
def exParams : PlanningParams where
  planning_link_sphere_radius := 1
  cost_per_cell := 100

/-- A 2×1×1 wavefront state whose cell `(0,0,0)` is a wall and whose stale
distance field holds 5 everywhere. -/
def exBfs : BFS_3D where
  dimX := 2
  dimY := 1
  dimZ := 1
  wall := fun x _ _ => decide (x = 0)
  dist := fun _ _ _ => 5

/-- Example heuristic state: the environment resolves state id 7 to cell
`(1,0,0)` and recognizes only state id 42 as the goal. -/
def exA : BfsHeuristic where
  grid := exGrid
  params := exParams
  bfs := exBfs
  getHashEntry := fun id => if id = 7 then some (1, 0, 0) else none
  isGoal := fun id => decide (id = 42)

/-- `exA` with a strictly larger clearance radius. -/
def exA2 : BfsHeuristic :=
  { exA with params := { exParams with planning_link_sphere_radius := 2 } }

/-- A wall-free 2×1×1 heuristic state whose `cost_per_cell_` is `INT_MAX`. -/
def exB : BfsHeuristic where
  grid := exGrid
  params := { planning_link_sphere_radius := 1, cost_per_cell := INT_MAX }
  bfs :=
    { dimX := 2, dimY := 1, dimZ := 1
      wall := fun _ _ _ => false
      dist := fun _ _ _ => BFS_3D.UNDISCOVERED }
  getHashEntry := fun _ => none
  isGoal := fun _ => false

/-- A 3×1×1 heuristic state with a wall at `(1,0,0)` separating the free
cell `(0,0,0)` from the free cell `(2,0,0)`. -/
def exC : BfsHeuristic where
  grid := { exGrid with sizeX := 3 }
  params := exParams
  bfs :=
    { dimX := 3, dimY := 1, dimZ := 1
      wall := fun x _ _ => decide (x = 1)
      dist := fun _ _ _ => BFS_3D.UNDISCOVERED }
  getHashEntry := fun _ => none
  isGoal := fun _ => false

/-! Helper lemmas. -/

/-- `setWall` marks exactly the requested cell. -/
lemma setWall_wall (b : BFS_3D) (x y z a e f : Int) :
    (b.setWall x y z).wall a e f = true ↔
      (a = x ∧ e = y ∧ f = z) ∨ b.wall a e f = true := by
  by_cases hc : a = x ∧ e = y ∧ f = z
  · simp [BFS_3D.setWall, hc]
  · simp [BFS_3D.setWall, hc]

/-- Unfolding one cell of the `markWalls` fold. -/
lemma markWalls_cons (g : OccupancyGrid) (r : ℚ) (c : Int × Int × Int)
    (L : List (Int × Int × Int)) (b : BFS_3D) :
    markWalls g r (c :: L) b =
      markWalls g r L
        (if g.getDistance c.1 c.2.1 c.2.2 ≤ r then b.setWall c.1 c.2.1 c.2.2
         else b) := rfl

/-- A cell is a wall after `markWalls` exactly when it was one before or it
is a visited cell whose clearance is within the radius. -/
lemma markWalls_wall (g : OccupancyGrid) (r : ℚ) (L : List (Int × Int × Int))
    (b : BFS_3D) (a e f : Int) :
    (markWalls g r L b).wall a e f = true ↔
      b.wall a e f = true ∨ ((a, e, f) ∈ L ∧ g.getDistance a e f ≤ r) := by
  induction L generalizing b with
  | nil => simp [markWalls]
  | cons c L ih =>
    obtain ⟨c1, c2, c3⟩ := c
    rw [markWalls_cons]
    by_cases hc : g.getDistance c1 c2 c3 ≤ r
    · rw [if_pos hc, ih, setWall_wall]
      simp only [List.mem_cons, Prod.mk.injEq]
      constructor
      · rintro ((⟨rfl, rfl, rfl⟩ | hw) | ⟨hm, hd⟩)
        · exact Or.inr ⟨Or.inl ⟨rfl, rfl, rfl⟩, hc⟩
        · exact Or.inl hw
        · exact Or.inr ⟨Or.inr hm, hd⟩
      · rintro (hw | ⟨⟨rfl, rfl, rfl⟩ | hm, hd⟩)
        · exact Or.inl (Or.inr hw)
        · exact Or.inl (Or.inl ⟨rfl, rfl, rfl⟩)
        · exact Or.inr ⟨hm, hd⟩
    · rw [if_neg hc, ih]
      simp only [List.mem_cons, Prod.mk.injEq]
      constructor
      · rintro (hw | ⟨hm, hd⟩)
        · exact Or.inl hw
        · exact Or.inr ⟨Or.inr hm, hd⟩
      · rintro (hw | ⟨⟨rfl, rfl, rfl⟩ | hm, hd⟩)
        · exact Or.inl hw
        · exact absurd hd hc
        · exact Or.inr ⟨hm, hd⟩

/-- `markWalls` never changes the field dimensions. -/
lemma markWalls_dims (g : OccupancyGrid) (r : ℚ) (L : List (Int × Int × Int))
    (b : BFS_3D) :
    (markWalls g r L b).dimX = b.dimX ∧ (markWalls g r L b).dimY = b.dimY ∧
      (markWalls g r L b).dimZ = b.dimZ := by
  induction L generalizing b with
  | nil => exact ⟨rfl, rfl, rfl⟩
  | cons c L ih =>
    rw [markWalls_cons]
    refine ⟨?_, ?_, ?_⟩
    · rw [(ih _).1]
      split <;> rfl
    · rw [(ih _).2.1]
      split <;> rfl
    · rw [(ih _).2.2]
      split <;> rfl

/-- Membership in the cell enumeration of the `syncGridAndBfs` loop. -/
lemma mem_allCells (xc yc zc : Nat) (a e f : Int) :
    (a, e, f) ∈ allCells xc yc zc ↔
      0 ≤ a ∧ a < (xc : Int) ∧ 0 ≤ e ∧ e < (yc : Int) ∧ 0 ≤ f ∧ f < (zc : Int) := by
  constructor
  · intro hmem
    rw [allCells, List.mem_flatMap] at hmem
    obtain ⟨z, hz, hmem⟩ := hmem
    rw [List.mem_flatMap] at hmem
    obtain ⟨y, hy, hmem⟩ := hmem
    rw [List.mem_map] at hmem
    obtain ⟨x, hx, heq⟩ := hmem
    rw [List.mem_range] at hz hy hx
    rw [Prod.mk.injEq, Prod.mk.injEq] at heq
    obtain ⟨h1, h2, h3⟩ := heq
    omega
  · intro hb
    rw [allCells, List.mem_flatMap]
    refine ⟨f.toNat, ?_, ?_⟩
    · rw [List.mem_range]
      omega
    · rw [List.mem_flatMap]
      refine ⟨e.toNat, ?_, ?_⟩
      · rw [List.mem_range]
        omega
      · rw [List.mem_map]
        refine ⟨a.toNat, ?_, ?_⟩
        · rw [List.mem_range]
          omega
        · rw [Prod.mk.injEq, Prod.mk.injEq]
          refine ⟨?_, ?_, ?_⟩ <;> omega

/-- A cell is a wall after `syncGridAndBfs` exactly when the loop visited it
and its clearance is within the configured radius. -/
lemma sync_wall_iff (h : BfsHeuristic) (x y z : Int) :
    (h.syncGridAndBfs).bfs.isWall x y z = true ↔
      ((x, y, z) ∈
          allCells h.grid.sizeX.toNat h.grid.sizeY.toNat h.grid.sizeZ.toNat ∧
        h.grid.getDistance x y z ≤ h.params.planning_link_sphere_radius) := by
  show (markWalls h.grid h.params.planning_link_sphere_radius
      (allCells h.grid.sizeX.toNat h.grid.sizeY.toNat h.grid.sizeZ.toNat)
      { dimX := h.grid.sizeX, dimY := h.grid.sizeY, dimZ := h.grid.sizeZ,
        wall := fun _ _ _ => false,
        dist := fun _ _ _ => BFS_3D.UNDISCOVERED }).wall x y z = true ↔ _
  rw [markWalls_wall]
  simp

/-- One wavefront layer never changes the wall mask. -/
lemma steps_wall (b : BFS_3D) (n : Nat) : (b.steps n).wall = b.wall := by
  induction n with
  | zero => rfl
  | succ n ih => exact ih

/-- Iterated wavefront layers never change the dimensions. -/
lemma steps_dims (b : BFS_3D) (n : Nat) :
    (b.steps n).dimX = b.dimX ∧ (b.steps n).dimY = b.dimY ∧
      (b.steps n).dimZ = b.dimZ := by
  induction n with
  | zero => exact ⟨rfl, rfl, rfl⟩
  | succ n ih => exact ih

/-- `run` never changes the wall mask. -/
lemma run_wall (b : BFS_3D) (sx sy sz : Int) :
    (b.run sx sy sz).wall = b.wall :=
  steps_wall _ _

/-- `run` never changes the dimensions. -/
lemma run_dims (b : BFS_3D) (sx sy sz : Int) :
    (b.run sx sy sz).dimX = b.dimX ∧ (b.run sx sy sz).dimY = b.dimY ∧
      (b.run sx sy sz).dimZ = b.dimZ :=
  steps_dims _ _

/-- `run` never changes the bounds predicate. -/
lemma run_inBounds (b : BFS_3D) (sx sy sz x y z : Int) :
    (b.run sx sy sz).inBounds x y z = b.inBounds x y z := by
  unfold BFS_3D.inBounds
  rw [(run_dims b sx sy sz).1, (run_dims b sx sy sz).2.1,
    (run_dims b sx sy sz).2.2]

/-- A wavefront layer leaves the distance of a wall cell untouched. -/
lemma step_dist_wall (b : BFS_3D) (k x y z : Int)
    (hw : b.wall x y z = true) :
    (b.step k).dist x y z = b.dist x y z := by
  simp [BFS_3D.step, hw]

/-- Iterated wavefront layers leave the distance of a wall cell untouched. -/
lemma steps_dist_wall (b : BFS_3D) (n : Nat) (x y z : Int)
    (hw : b.wall x y z = true) :
    (b.steps n).dist x y z = b.dist x y z := by
  induction n with
  | zero => rfl
  | succ n ih =>
    show ((b.steps n).step _).dist x y z = _
    rw [step_dist_wall _ _ _ _ _, ih]
    rw [steps_wall]
    exact hw

/-- After a run from a non-wall source, every wall cell stores the `WALL`
sentinel. -/
lemma run_dist_wall (b : BFS_3D) (sx sy sz x y z : Int)
    (hw : b.wall x y z = true) (hs : b.wall sx sy sz = false) :
    (b.run sx sy sz).dist x y z = BFS_3D.WALL := by
  have hne : ¬(x = sx ∧ y = sy ∧ z = sz) := by
    rintro ⟨rfl, rfl, rfl⟩
    rw [hw] at hs
    exact Bool.noConfusion hs
  have h1 := steps_dist_wall
      ({ b with dist := fun a e f =>
          if a = sx ∧ e = sy ∧ f = sz then 0
          else if b.wall a e f = true then BFS_3D.WALL
          else BFS_3D.UNDISCOVERED })
      (b.dimX * b.dimY * b.dimZ).toNat x y z hw
  exact h1.trans (by simp [hne, hw])

/-- `syncGridAndBfs` sizes the fresh wavefront field to the grid. -/
lemma sync_dims (h : BfsHeuristic) :
    (h.syncGridAndBfs).bfs.dimX = h.grid.sizeX ∧
      (h.syncGridAndBfs).bfs.dimY = h.grid.sizeY ∧
      (h.syncGridAndBfs).bfs.dimZ = h.grid.sizeZ :=
  markWalls_dims h.grid h.params.planning_link_sphere_radius
    (allCells h.grid.sizeX.toNat h.grid.sizeY.toNat h.grid.sizeZ.toNat)
    { dimX := h.grid.sizeX, dimY := h.grid.sizeY, dimZ := h.grid.sizeZ,
      wall := fun _ _ _ => false,
      dist := fun _ _ _ => BFS_3D.UNDISCOVERED }

/-- Out-of-bounds branch of `getMetricGoalDistance`. -/
lemma metric_oob (h : BfsHeuristic) (x y z : ℚ)
    (hb : h.bfs.inBounds (h.grid.worldToGrid x y z).1
      (h.grid.worldToGrid x y z).2.1 (h.grid.worldToGrid x y z).2.2 = false) :
    h.getMetricGoalDistance x y z = (BFS_3D.WALL : ℚ) * h.grid.getResolution := by
  simp [BfsHeuristic.getMetricGoalDistance, hb]

/-- In-bounds branch of `getMetricGoalDistance`. -/
lemma metric_inb (h : BfsHeuristic) (x y z : ℚ)
    (hb : h.bfs.inBounds (h.grid.worldToGrid x y z).1
      (h.grid.worldToGrid x y z).2.1 (h.grid.worldToGrid x y z).2.2 = true) :
    h.getMetricGoalDistance x y z =
      (h.bfs.getDistance (h.grid.worldToGrid x y z).1
        (h.grid.worldToGrid x y z).2.1 (h.grid.worldToGrid x y z).2.2 : ℚ) *
        h.grid.getResolution := by
  simp [BfsHeuristic.getMetricGoalDistance, hb]

/-- C5: for every continuous query point, `getMetricGoalDistance` converts
the point to grid coordinates; if the resulting cell is out of grid bounds
it returns exactly the `WALL` sentinel constant times the grid resolution,
and otherwise exactly the cell's stored BFS distance times the grid
resolution. -/
theorem C5_getMetricGoalDistance (h : BfsHeuristic) (x y z : ℚ) :
    (h.bfs.inBounds (h.grid.worldToGrid x y z).1 (h.grid.worldToGrid x y z).2.1
        (h.grid.worldToGrid x y z).2.2 = false →
      h.getMetricGoalDistance x y z = (BFS_3D.WALL : ℚ) * h.grid.getResolution) ∧
    (h.bfs.inBounds (h.grid.worldToGrid x y z).1 (h.grid.worldToGrid x y z).2.1
        (h.grid.worldToGrid x y z).2.2 = true →
      h.getMetricGoalDistance x y z =
        (h.bfs.getDistance (h.grid.worldToGrid x y z).1
          (h.grid.worldToGrid x y z).2.1 (h.grid.worldToGrid x y z).2.2 : ℚ) *
          h.grid.getResolution) := by
  constructor <;> intro hb <;> simp [BfsHeuristic.getMetricGoalDistance, hb]

/-- C5 witness: on `exA`, the world point `(5,0,0)` falls out of bounds and
yields the sentinel penalty, while `(0,0,0)` falls on a grid cell and
yields its stored distance scaled by the resolution. -/
theorem C5_getMetricGoalDistance_witness :
    exA.getMetricGoalDistance 5 0 0 = (BFS_3D.WALL : ℚ) * exA.grid.getResolution ∧
    exA.getMetricGoalDistance 0 0 0 =
      (exA.bfs.getDistance 0 0 0 : ℚ) * exA.grid.getResolution :=
  ⟨(C5_getMetricGoalDistance exA 5 0 0).1 (by decide),
   (C5_getMetricGoalDistance exA 0 0 0).2 (by decide)⟩

/-- C6: `GetFromToHeuristic` returns exactly `GetGoalHeuristic from_id`
whenever the environment recognizes `to_id` as the goal, and 0 otherwise. -/
theorem C6_GetFromToHeuristic (h : BfsHeuristic) (from_id to_id : Int) :
    (h.isGoal to_id = true →
      h.GetFromToHeuristic from_id to_id = h.GetGoalHeuristic from_id) ∧
    (h.isGoal to_id = false → h.GetFromToHeuristic from_id to_id = 0) := by
  constructor <;> intro hb <;> simp [BfsHeuristic.GetFromToHeuristic, hb]

/-- C6 witness: on `exA`, state id 42 is the goal so the pair query defers
to the goal query, and state id 3 is not so the pair query returns 0. -/
theorem C6_GetFromToHeuristic_witness :
    exA.GetFromToHeuristic 7 42 = exA.GetGoalHeuristic 7 ∧
    exA.GetFromToHeuristic 7 3 = 0 :=
  ⟨(C6_GetFromToHeuristic exA 7 42).1 (by decide),
   (C6_GetFromToHeuristic exA 7 3).2 (by decide)⟩

/-- C7: `GetGoalHeuristic` returns 0 for a state id the environment cannot
resolve, and returns exactly `getBfsCostToGoal` at the resolved cell for
every resolvable state id. -/
theorem C7_GetGoalHeuristic (h : BfsHeuristic) (state_id : Int) :
    (h.getHashEntry state_id = none → h.GetGoalHeuristic state_id = 0) ∧
    (∀ p : Int × Int × Int, h.getHashEntry state_id = some p →
      h.GetGoalHeuristic state_id = h.getBfsCostToGoal h.bfs p.1 p.2.1 p.2.2) := by
  constructor
  · intro hb
    simp [BfsHeuristic.GetGoalHeuristic, hb]
  · intro p hb
    simp [BfsHeuristic.GetGoalHeuristic, hb]

/-- C7 witness: on `exA`, state id 3 is unresolvable and returns 0, while
state id 7 resolves to cell `(1,0,0)` and returns its cost to goal. -/
theorem C7_GetGoalHeuristic_witness :
    exA.GetGoalHeuristic 3 = 0 ∧
    exA.GetGoalHeuristic 7 = exA.getBfsCostToGoal exA.bfs 1 0 0 :=
  ⟨(C7_GetGoalHeuristic exA 3).1 (by decide),
   (C7_GetGoalHeuristic exA 7).2 (1, 0, 0) (by decide)⟩

/-- C8: for every state identifier and every heuristic state,
`GetStartHeuristic` returns 0 and leaves the heuristic state (hence its
wavefront and wall fields) exactly unchanged. -/
theorem C8_GetStartHeuristic (h : BfsHeuristic) (state_id : Int) :
    h.GetStartHeuristic state_id = (0, h) := rfl

/-- C1 counterexample: on `exA` the goal cell `(0,0,0)` is a wall, yet
`setGoal` reports success and the wavefront re-runs, changing the stored
distance of cell `(1,0,0)` — refuting the claim that a wall goal makes
`setGoal` fail and leave the distance field untouched. -/
theorem C1_counterexample :
    exA.bfs.isWall 0 0 0 = true ∧
    (exA.setGoal 0 0 0).1 = true ∧
    (exA.setGoal 0 0 0).2.bfs.getDistance 1 0 0 ≠ exA.bfs.getDistance 1 0 0 := by
  decide

/-- C1 amended: `setGoal` returns failure exactly when the goal cell is out
of grid bounds, and then the heuristic state — in particular the distance
field — is exactly unchanged; every in-bounds goal cell, wall or not, is
accepted: the wavefront re-runs from it and `setGoal` reports success. -/
theorem C1_setGoal_amended (h : BfsHeuristic) (x y z : Int) :
    (h.bfs.inBounds x y z = false → h.setGoal x y z = (false, h)) ∧
    (h.bfs.inBounds x y z = true →
      (h.setGoal x y z).1 = true ∧
      (h.setGoal x y z).2 = { h with bfs := h.bfs.run x y z }) := by
  constructor <;> intro hb <;> simp [BfsHeuristic.setGoal, hb]

/-- C1 amended witness: on `exA`, the out-of-bounds goal `(-1,0,0)` fails
and preserves the state, while the in-bounds goal `(1,0,0)` succeeds and
re-runs the wavefront. -/
theorem C1_setGoal_amended_witness :
    exA.setGoal (-1) 0 0 = (false, exA) ∧
    (exA.setGoal 1 0 0).1 = true ∧
    (exA.setGoal 1 0 0).2 = { exA with bfs := exA.bfs.run 1 0 0 } :=
  ⟨(C1_setGoal_amended exA (-1) 0 0).1 (by decide),
   (C1_setGoal_amended exA 1 0 0).2 (by decide)⟩

/-- C2 counterexample: on `exB` (whose `cost_per_cell_` is `INT_MAX`),
after a run from `(0,0,0)` the cell `(1,0,0)` is in bounds with distance
1 ≠ `WALL`, yet `getBfsCostToGoal` returns `INT_MAX` — refuting the claimed
"only if" direction of the sentinel characterization. -/
theorem C2_counterexample :
    (exB.setGoal 0 0 0).2.bfs.inBounds 1 0 0 = true ∧
    (exB.setGoal 0 0 0).2.bfs.getDistance 1 0 0 ≠ BFS_3D.WALL ∧
    (exB.setGoal 0 0 0).2.getBfsCostToGoal (exB.setGoal 0 0 0).2.bfs 1 0 0 =
      INT_MAX := by
  decide

/-- C2 amended: `getBfsCostToGoal` returns `INT_MAX` for every out-of-bounds
cell and every cell whose stored distance is the `WALL` sentinel; every
other cell yields exactly `cost_per_cell_ * distance` — linear in the
stored distance with slope `cost_per_cell_`, and monotonically
non-decreasing in it whenever `cost_per_cell_ ≥ 0`; conversely `INT_MAX`
arises only from out-of-bounds or `WALL` cells provided the product
`cost_per_cell_ * distance` never collides with `INT_MAX` on in-bounds
non-wall cells. -/
theorem C2_getBfsCostToGoal_amended (h : BfsHeuristic) (b : BFS_3D) :
    (∀ x y z : Int, b.inBounds x y z = false →
        h.getBfsCostToGoal b x y z = INT_MAX) ∧
    (∀ x y z : Int, b.inBounds x y z = true →
        b.getDistance x y z = BFS_3D.WALL →
        h.getBfsCostToGoal b x y z = INT_MAX) ∧
    (∀ x y z : Int, b.inBounds x y z = true →
        b.getDistance x y z ≠ BFS_3D.WALL →
        h.getBfsCostToGoal b x y z =
          h.params.cost_per_cell * b.getDistance x y z) ∧
    (0 ≤ h.params.cost_per_cell →
      ∀ x1 y1 z1 x2 y2 z2 : Int,
        b.inBounds x1 y1 z1 = true → b.inBounds x2 y2 z2 = true →
        b.getDistance x1 y1 z1 ≠ BFS_3D.WALL →
        b.getDistance x2 y2 z2 ≠ BFS_3D.WALL →
        b.getDistance x1 y1 z1 ≤ b.getDistance x2 y2 z2 →
        h.getBfsCostToGoal b x1 y1 z1 ≤ h.getBfsCostToGoal b x2 y2 z2) ∧
    ((∀ x y z : Int, b.inBounds x y z = true →
        b.getDistance x y z ≠ BFS_3D.WALL →
        h.params.cost_per_cell * b.getDistance x y z ≠ INT_MAX) →
      ∀ x y z : Int, h.getBfsCostToGoal b x y z = INT_MAX →
        b.inBounds x y z = false ∨ b.getDistance x y z = BFS_3D.WALL) := by
  refine ⟨?_, ?_, ?_, ?_, ?_⟩
  · intro x y z hb
    simp [BfsHeuristic.getBfsCostToGoal, hb]
  · intro x y z hb hw
    simp [BfsHeuristic.getBfsCostToGoal, hb, hw]
  · intro x y z hb hw
    simp [BfsHeuristic.getBfsCostToGoal, hb, hw]
  · intro hc x1 y1 z1 x2 y2 z2 hb1 hb2 hw1 hw2 hle
    simp only [BfsHeuristic.getBfsCostToGoal, hb1, hb2, hw1, hw2,
      Bool.not_true, if_false, if_neg hw1, if_neg hw2]
    exact mul_le_mul_of_nonneg_left hle hc
  · intro hnc x y z hmax
    by_cases hb : b.inBounds x y z = true
    · by_cases hw : b.getDistance x y z = BFS_3D.WALL
      · exact Or.inr hw
      · exfalso
        apply hnc x y z hb hw
        rw [← hmax]
        simp [BfsHeuristic.getBfsCostToGoal, hb, hw]
    · exact Or.inl (by simpa using hb)

/-- C2 amended witness: on `exA`, an out-of-bounds cell yields `INT_MAX`,
the free cell `(1,0,0)` yields `cost_per_cell_ * distance`, and the
monotonicity instance between cells `(0,0,0)` and `(1,0,0)` holds. -/
theorem C2_getBfsCostToGoal_amended_witness :
    exA.getBfsCostToGoal exA.bfs (-1) 0 0 = INT_MAX ∧
    exA.getBfsCostToGoal exA.bfs 1 0 0 =
      exA.params.cost_per_cell * exA.bfs.getDistance 1 0 0 ∧
    exA.getBfsCostToGoal exA.bfs 0 0 0 ≤ exA.getBfsCostToGoal exA.bfs 1 0 0 :=
  ⟨(C2_getBfsCostToGoal_amended exA exA.bfs).1 (-1) 0 0 (by decide),
   (C2_getBfsCostToGoal_amended exA exA.bfs).2.2.1 1 0 0 (by decide) (by decide),
   (C2_getBfsCostToGoal_amended exA exA.bfs).2.2.2.1 (by decide) 0 0 0 1 0 0
     (by decide) (by decide) (by decide) (by decide) (by decide)⟩

/-- C3: on `exC`, after a successful run from `(2,0,0)`, the free cell
`(0,0,0)` is walled off and stays `UNDISCOVERED`; `getBfsCostToGoal` there
returns `cost_per_cell_ * UNDISCOVERED = -100`, a finite scaled value, not
the `INT_MAX` sentinel the specification promises for unreachable cells. -/
theorem C3_undiscovered_cost_bug :
    (exC.setGoal 2 0 0).1 = true ∧
    (exC.setGoal 2 0 0).2.bfs.isWall 0 0 0 = false ∧
    (exC.setGoal 2 0 0).2.bfs.getDistance 0 0 0 = BFS_3D.UNDISCOVERED ∧
    (exC.setGoal 2 0 0).2.getBfsCostToGoal (exC.setGoal 2 0 0).2.bfs 0 0 0 =
      -100 ∧
    (-100 : Int) ≠ INT_MAX := by
  decide

/-- C4: the wavefront field built by `syncGridAndBfs` has exactly the
grid's dimensions, and an in-bounds cell is marked a wall exactly when its
clearance distance is at most `planning_link_sphere_radius_` — the loop
classifies every cell of the grid. -/
theorem C4_syncGridAndBfs_wall_iff (h : BfsHeuristic) (x y z : Int) :
    (h.syncGridAndBfs).bfs.dimX = h.grid.sizeX ∧
    (h.syncGridAndBfs).bfs.dimY = h.grid.sizeY ∧
    (h.syncGridAndBfs).bfs.dimZ = h.grid.sizeZ ∧
    ((h.syncGridAndBfs).bfs.inBounds x y z = true →
      ((h.syncGridAndBfs).bfs.isWall x y z = true ↔
        h.grid.getDistance x y z ≤ h.params.planning_link_sphere_radius)) := by
  refine ⟨(sync_dims h).1, (sync_dims h).2.1, (sync_dims h).2.2, ?_⟩
  intro hin
  unfold BFS_3D.inBounds at hin
  rw [(sync_dims h).1, (sync_dims h).2.1, (sync_dims h).2.2,
    decide_eq_true_eq] at hin
  rw [sync_wall_iff, mem_allCells]
  constructor
  · exact fun hw => hw.2
  · intro hc
    exact ⟨by omega, hc⟩

/-- C4 witness: on `exA`, the in-bounds cell `(0,0,0)` gives a concrete
instance of the wall classification equivalence. -/
theorem C4_syncGridAndBfs_wall_iff_witness :
    (exA.syncGridAndBfs).bfs.isWall 0 0 0 = true ↔
      exA.grid.getDistance 0 0 0 ≤ exA.params.planning_link_sphere_radius :=
  (C4_syncGridAndBfs_wall_iff exA 0 0 0).2.2.2 (by decide)

/-- C9: for a fixed grid, rebuilding with a strictly larger clearance
radius only adds walls: every wall of the smaller-radius rebuild is a wall
of the larger-radius rebuild. -/
theorem C9_monotonic_rebuild (h1 h2 : BfsHeuristic)
    (hg : h1.grid = h2.grid)
    (hr : h1.params.planning_link_sphere_radius <
      h2.params.planning_link_sphere_radius)
    (x y z : Int)
    (hw : (h1.syncGridAndBfs).bfs.isWall x y z = true) :
    (h2.syncGridAndBfs).bfs.isWall x y z = true := by
  rw [sync_wall_iff] at hw ⊢
  rw [← hg]
  exact ⟨hw.1, le_trans hw.2 (le_of_lt hr)⟩

/-- C9 witness: `exA2` differs from `exA` only by a strictly larger
clearance radius, and the wall `(0,0,0)` of `exA`'s rebuild persists in
`exA2`'s rebuild. -/
theorem C9_monotonic_rebuild_witness :
    (exA2.syncGridAndBfs).bfs.isWall 0 0 0 = true :=
  C9_monotonic_rebuild exA exA2 rfl (by decide) 0 0 0 (by decide)

/-- C10: after a run from a non-wall source, a metric query landing on an
in-bounds wall cell returns exactly the `WALL` sentinel times the grid
resolution — the same value an out-of-bounds metric query returns — because
the wall cell's stored distance is the `WALL` sentinel itself. -/
theorem C10_wall_indistinguishable (h : BfsHeuristic) (sx sy sz x y z : Int)
    (wx wy wz ox oy oz : ℚ)
    (hsin : h.bfs.inBounds sx sy sz = true)
    (hsfree : h.bfs.isWall sx sy sz = false)
    (hmap : h.grid.worldToGrid wx wy wz = (x, y, z))
    (hin : h.bfs.inBounds x y z = true)
    (hwall : h.bfs.isWall x y z = true)
    (hoob : h.bfs.inBounds (h.grid.worldToGrid ox oy oz).1
      (h.grid.worldToGrid ox oy oz).2.1
      (h.grid.worldToGrid ox oy oz).2.2 = false) :
    (h.setGoal sx sy sz).2.getMetricGoalDistance wx wy wz =
      (BFS_3D.WALL : ℚ) * h.grid.getResolution ∧
    (h.setGoal sx sy sz).2.getMetricGoalDistance ox oy oz =
      (BFS_3D.WALL : ℚ) * h.grid.getResolution := by
  have hsg : (h.setGoal sx sy sz).2 = { h with bfs := h.bfs.run sx sy sz } := by
    simp [BfsHeuristic.setGoal, hsin]
  rw [hsg]
  constructor
  · have hb : (h.bfs.run sx sy sz).inBounds x y z = true := by
      rw [run_inBounds]
      exact hin
    have hmd : (h.bfs.run sx sy sz).dist x y z = BFS_3D.WALL :=
      run_dist_wall h.bfs sx sy sz x y z hwall hsfree
    unfold BfsHeuristic.getMetricGoalDistance
    simp only [hmap]
    simp [BFS_3D.getDistance, hb, hmd]
  · have hb2 : (h.bfs.run sx sy sz).inBounds (h.grid.worldToGrid ox oy oz).1
        (h.grid.worldToGrid ox oy oz).2.1
        (h.grid.worldToGrid ox oy oz).2.2 = false := by
      rw [run_inBounds]
      exact hoob
    exact metric_oob { h with bfs := h.bfs.run sx sy sz } ox oy oz hb2

/-- C10 witness: on `exA`, after a run from the free cell `(1,0,0)`, the
metric query at the world point `(0,0,0)` (landing on the wall cell) and
the out-of-bounds query at `(5,0,0)` both return the sentinel penalty. -/
theorem C10_wall_indistinguishable_witness :
    (exA.setGoal 1 0 0).2.getMetricGoalDistance 0 0 0 =
      (BFS_3D.WALL : ℚ) * exA.grid.getResolution ∧
    (exA.setGoal 1 0 0).2.getMetricGoalDistance 5 0 0 =
      (BFS_3D.WALL : ℚ) * exA.grid.getResolution :=
  C10_wall_indistinguishable exA 1 0 0 0 0 0 0 0 0 5 0 0 (by decide) (by decide)
    (by decide) (by decide) (by decide) (by decide)

end Smpl
